import Mathlib

/-!
Verification of the coordination core of the `dodal` beamline device library:
the aperture/scatterguard safe-move coordinator
(`src/dodal/devices/aperturescatterguard.py`) and the Eiger detector
acquisition controller (`src/dodal/devices/eiger.py`).

Motor positions and energies are modelled as rationals (the Python code only
compares them with `==`, `!=`, `>` and arithmetic on exact configuration
values).  Every hardware interaction (an EPICS `set`/`put`, a status `wait`,
a log call) is recorded as an event in an explicit trace, so that ordering,
"zero writes" and "proceeds regardless" properties are statements about the
trace a function returns.
-/

namespace Dodal

/-! ## Aperture / scatterguard data model -/

/-- A 5-tuple `(miniap_x, miniap_y, miniap_z, scatterguard_x, scatterguard_y)`
of motor positions, as held by `AperturePositions`. -/
structure Pos5 where
  miniap_x : ℚ
  miniap_y : ℚ
  miniap_z : ℚ
  scatterguard_x : ℚ
  scatterguard_y : ℚ
deriving DecidableEq, Repr

/-- The four named presets of `AperturePositions`. -/
structure AperturePositions where
  LARGE : Pos5
  MEDIUM : Pos5
  SMALL : Pos5
  ROBOT_LOAD : Pos5
deriving DecidableEq, Repr

/-- `AperturePositions.position_valid`: `pos` is valid iff it is bit-exact
equal to one of the four presets (`if pos not in [...]: return False`). -/
def AperturePositions.position_valid (ps : AperturePositions) (pos : Pos5) : Bool :=
  if pos ∈ [ps.LARGE, ps.MEDIUM, ps.SMALL, ps.ROBOT_LOAD] then true else false

/-- The motor readbacks consulted by `_safe_move_within_datacollection_range`:
`aperture.z.motor_done_move`, `aperture.z.user_setpoint`,
`aperture.y.user_readback`. -/
structure ApSgMotors where
  ap_z_done_move : Bool
  ap_z_setpoint : ℚ
  ap_y_readback : ℚ
deriving DecidableEq, Repr

/-- One hardware interaction issued by the coordinator.  The `set...` events
are motor writes (issuing an asynchronous move); `waitFirstPhase` is the
blocking `.wait()` on the first phase's `AndStatus`, i.e. the point at which
that composite has reported finished. -/
inductive Ev where
  | setScatterguardX (v : ℚ)
  | setScatterguardY (v : ℚ)
  | setApertureX (v : ℚ)
  | setApertureY (v : ℚ)
  | setApertureZ (v : ℚ)
  | waitFirstPhase
deriving DecidableEq, Repr

/-- Outcome of `set` / `_safe_move_within_datacollection_range`. -/
inductive MoveOutcome where
  /-- `raise InvalidApertureMove(msg)` -/
  | invalidMove (msg : String)
  /-- the bare `return` taken when the aperture z axis is not done moving -/
  | noop
  /-- the final `AndStatus` is returned -/
  | moved
deriving DecidableEq, Repr

/-- `ApertureScatterguard._safe_move_within_datacollection_range`, as the trace
of hardware interactions it issues (in order) together with its outcome.

Control flow from the source: if `aperture.z.motor_done_move` is unset, return
`None` at once; if `aperture.z.user_setpoint` differs from the requested
`aperture_z`, raise `InvalidApertureMove`; otherwise compare the requested
`aperture_y` with `aperture.y.user_readback` — if strictly greater, set
scatterguard x and y, wait on their `AndStatus`, then set aperture x, y, z;
otherwise set aperture x, y, z, wait on their `AndStatus`, then set
scatterguard x and y. -/
def safe_move_within_datacollection_range (m : ApSgMotors)
    (aperture_x aperture_y aperture_z scatterguard_x scatterguard_y : ℚ) :
    List Ev × MoveOutcome :=
  if m.ap_z_done_move = false then
    ([], .noop)
  else if m.ap_z_setpoint ≠ aperture_z then
    ([], .invalidMove
      "ApertureScatterguard safe move is not yet defined for positions outside of LARGE, MEDIUM, SMALL, ROBOT_LOAD.")
  else if aperture_y > m.ap_y_readback then
    ([.setScatterguardX scatterguard_x, .setScatterguardY scatterguard_y,
      .waitFirstPhase,
      .setApertureX aperture_x, .setApertureY aperture_y, .setApertureZ aperture_z],
     .moved)
  else
    ([.setApertureX aperture_x, .setApertureY aperture_y, .setApertureZ aperture_z,
      .waitFirstPhase,
      .setScatterguardX scatterguard_x, .setScatterguardY scatterguard_y],
     .moved)

/-- The `ApertureScatterguard` device: the (optionally loaded) preset table
plus the motor readbacks consulted by the safe move. -/
structure ApertureScatterguard where
  aperture_positions : Option AperturePositions
  motors : ApSgMotors
deriving DecidableEq, Repr

/-- `ApertureScatterguard.set`: asserts that the preset table is loaded and
that the position is valid, re-raising any `AssertionError` as
`InvalidApertureMove`; otherwise delegates to the safe move. -/
def ApertureScatterguard.set (d : ApertureScatterguard) (pos : Pos5) :
    List Ev × MoveOutcome :=
  match d.aperture_positions with
  | none =>
      ([], .invalidMove "AssertionError: aperture positions have not been loaded")
  | some ps =>
      if ps.position_valid pos then
        safe_move_within_datacollection_range d.motors
          pos.miniap_x pos.miniap_y pos.miniap_z pos.scatterguard_x pos.scatterguard_y
      else
        ([], .invalidMove "AssertionError: position is not a valid preset")

end Dodal

namespace Dodal

/-! ## Eiger detector data model -/

/-- `TriggerMode` from `dodal.devices.detector`: the two acquisition modes
used by `eiger.py` (`FREE_RUN` and `SET_FRAMES`). -/
inductive TriggerMode where
  | FREE_RUN
  | SET_FRAMES
deriving DecidableEq, Repr

/-- A pixel-dimension record (`height`, `width`), one of the two named
records inside the detector size constants. -/
structure PixelDims where
  height : ℕ
  width : ℕ
deriving DecidableEq, Repr

/-- Detector size constants: full-frame and ROI pixel dimensions. -/
structure DetectorSizeConstants where
  roi_size_pixels : PixelDims
  det_size_pixels : PixelDims
deriving DecidableEq, Repr

/-- The fields of `DetectorParams` consulted by the code under verification.
`detector_size_constants` and `beam_xy_converter` are optional because
`set_detector_parameters` validates their presence; the converter's own
contents are never inspected by the coordination code, only its presence. -/
structure DetectorParams where
  current_energy : ℚ
  exposure_time : ℚ
  num_triggers : ℕ
  num_images_per_trigger : ℕ
  use_roi_mode : Bool
  trigger_mode : TriggerMode
  detector_size_constants : Option DetectorSizeConstants
  beam_xy_converter : Option Unit
deriving DecidableEq, Repr

/-- Modelled from the spec: `DetectorParams.full_number_of_images` is defined
in `dodal/devices/detector.py`, which is not among the sources here; the spec
(§4.3 step 8, SET_FRAMES) gives writer capture-count =
num_triggers × num_images_per_trigger, so the derived field is that
product. -/
def DetectorParams.full_number_of_images (p : DetectorParams) : ℕ :=
  p.num_triggers * p.num_images_per_trigger

/-- `FREE_RUN_MAX_IMAGES = 1000000`, the stand-in trigger count for free-run
mode. -/
def FREE_RUN_MAX_IMAGES : ℕ := 1000000

/-- One hardware interaction (or log call) issued by the Eiger controller, in
trace order.  `camNumImages`/`camNumTriggers`/`odinNumCapture` are the writes
made by `set_num_triggers_and_captures`; `camPhotonEnergy` the threshold
write; `camRoiMode` through `odinNumColChunks` the ROI-geometry writes of
`change_roi_mode`; `waitStatus t` a blocking `status.wait(t)`; the remaining
constructors are the summary steps of `stage`/`unstage` whose internals touch
only external collaborators (the Odin writer contract and the pixel-geometry
lookup, excluded from the core). -/
inductive EigerEv where
  | camNumImages (n : ℕ)
  | camNumTriggers (n : ℕ)
  | odinNumCapture (n : ℕ)
  | camPhotonEnergy (e : ℚ)
  | camRoiMode (n : ℕ)
  | odinImageHeight (n : ℕ)
  | odinImageWidth (n : ℕ)
  | odinNumRowChunks (n : ℕ)
  | odinNumColChunks (n : ℕ)
  | waitStatus (timeout : ℕ)
  | logError (msg : String)
  | clearOdinErrors
  | checkOdinInitialised
  | setCamPvs
  | setOdinPvs
  | setMxSettingsPvs
  | armDetector
  | awaitNumCaptured (n : ℕ)
  | odinStop
  | odinStartTimeoutPut (n : ℕ)
  | waitFilewritersFinished
  | disarmDetector
  | checkOdinState
deriving DecidableEq, Repr

/-- The status object returned by `set_detector_threshold`: either the status
of the single `photon_energy.set(energy)` write, or a fresh `Status` already
marked finished. -/
inductive ThresholdStatus where
  | writeStatus (e : ℚ)
  | finishedStatus
deriving DecidableEq, Repr

/-- `EigerDetector.set_detector_threshold(energy, tolerance)`: reads the
current photon energy; if it differs from the requested energy by more than
the tolerance, issues exactly one write of the requested value and returns its
status; otherwise issues no write and returns an already-finished status. -/
def set_detector_threshold (current_energy energy tolerance : ℚ) :
    List EigerEv × ThresholdStatus :=
  if |current_energy - energy| > tolerance then
    ([.camPhotonEnergy energy], .writeStatus energy)
  else
    ([], .finishedStatus)

/-- `EigerDetector.set_num_triggers_and_captures`: always writes the camera's
per-trigger image count first, then branches on the trigger mode — `FREE_RUN`
writes the stand-in trigger count and a writer capture-count of `0`;
`SET_FRAMES` writes `num_triggers` and the full number of images. -/
def set_num_triggers_and_captures (p : DetectorParams) : List EigerEv :=
  [EigerEv.camNumImages p.num_images_per_trigger] ++
    match p.trigger_mode with
    | .FREE_RUN => [.camNumTriggers FREE_RUN_MAX_IMAGES, .odinNumCapture 0]
    | .SET_FRAMES =>
        [.camNumTriggers p.num_triggers, .odinNumCapture p.full_number_of_images]

/-- `EigerDetector.change_roi_mode(enable)`: picks ROI or full-frame pixel
dimensions, issues the camera ROI flag and the four writer geometry writes,
waits up to 10 time-units on their `AndStatus`, and on failure only logs an
error — it never raises, so its whole behaviour is a trace.  `wait_success`
is whether that composite reported success within the wait.  Returns `none`
when the size constants are absent (the Python would fail on attribute
access; unreachable once `set_detector_parameters` has succeeded). -/
def change_roi_mode (p : DetectorParams) (enable : Bool) (wait_success : Bool) :
    Option (List EigerEv) :=
  match p.detector_size_constants with
  | none => none
  | some sz =>
      let dims := if enable then sz.roi_size_pixels else sz.det_size_pixels
      some
        ([.camRoiMode (if enable then 1 else 0),
          .odinImageHeight dims.height, .odinImageWidth dims.width,
          .odinNumRowChunks dims.height, .odinNumColChunks dims.width,
          .waitStatus 10] ++
          if wait_success then [] else [.logError "Failed to switch to ROI mode"])

/-- `STALE_PARAMS_TIMEOUT = 60`. -/
def STALE_PARAMS_TIMEOUT : ℕ := 60

/-- The hardware responses consumed during `stage`: whether
`check_odin_initialised` reports OK (and its reason string otherwise), the
current photon-energy readback, and whether the ROI switch composite reported
success within its wait. -/
structure StageEnv where
  odin_initialised_ok : Bool
  odin_error_message : String
  photon_energy_readback : ℚ
  roi_switch_success : Bool
deriving DecidableEq, Repr

/-- The configuration steps of `stage` that follow the optional ROI-mode
switch: the threshold write (if needed), the cam/odin/mx settings batches,
the trigger/capture counts, the wait for parameter callbacks, and arming. -/
def stage_steps_after_roi (p : DetectorParams) (env : StageEnv) : List EigerEv :=
  (set_detector_threshold env.photon_energy_readback p.current_energy (1/10)).1 ++
    [.setCamPvs, .setOdinPvs, .setMxSettingsPvs] ++
    set_num_triggers_and_captures p ++
    [.waitStatus STALE_PARAMS_TIMEOUT, .armDetector]

/-- `EigerDetector.stage()`: clears Odin errors, checks Odin initialisation
(aborting with the writer's reason on failure, before any configuration
write), optionally enables ROI mode, then issues the remaining configuration
steps, waits for the stale-parameter callbacks and arms the detector. -/
def EigerDetector.stage (p : DetectorParams) (env : StageEnv) :
    List EigerEv × Except String Unit :=
  let pre : List EigerEv := [.clearOdinErrors, .checkOdinInitialised]
  if env.odin_initialised_ok = false then
    (pre, .error ("Odin not initialised: " ++ env.odin_error_message))
  else
    match (if p.use_roi_mode then change_roi_mode p true env.roi_switch_success
           else some []) with
    | none => (pre, .error "AttributeError: detector_size_constants is None")
    | some roiEvents =>
        (pre ++ roiEvents ++ stage_steps_after_roi p env, .ok ())

/-- The controller state touched by `set_detector_parameters`: the stored
(optional) detector parameters. -/
structure EigerState where
  detector_params : Option DetectorParams
deriving DecidableEq, Repr

/-- The validation messages of `set_detector_parameters`: one per failing
check, in the order of the `to_check` list. -/
def detector_param_errors (p : DetectorParams) : List String :=
  ([(p.detector_size_constants.isNone, "Detector Size must be set"),
    (p.beam_xy_converter.isNone, "Beam converter must be set")] :
      List (Bool × String)).filterMap
    (fun c => if c.1 then some c.2 else none)

/-- `EigerDetector.set_detector_parameters(detector_params)`: stores the
supplied parameters on the controller first, raises if they are `None`, then
collects one message per failing check and raises their newline-join if any
check failed.  The middle component is the hardware-write trace (always
empty: this method never touches hardware). -/
def set_detector_parameters (_s : EigerState) (p? : Option DetectorParams) :
    EigerState × List EigerEv × Except String Unit :=
  let s' : EigerState := { detector_params := p? }
  match p? with
  | none => (s', [], .error "Parameters for scan must be specified")
  | some p =>
      let errors := detector_param_errors p
      if errors.isEmpty then (s', [], .ok ())
      else (s', [], .error (String.intercalate "\n" errors))

/-- The number of lines in a fault message, counted exactly as the
repository's own test does (`str(e.value).count("\n") + 1`). -/
def lineCount (msg : String) : ℕ :=
  (msg.toList.filter (fun c => c = '\n')).length + 1

/-- The hardware responses consumed during `unstage`: whether
`check_odin_state` reports healthy, and whether the final ROI-disable
composite reported success within its wait. -/
structure UnstageEnv where
  odin_state_ok : Bool
  disable_roi_success : Bool
deriving DecidableEq, Repr

/-- `EigerDetector.unstage()`: asserts that detector parameters have been set
(raising before any writer interaction otherwise); in free-run mode first
waits for all frames and stops Odin; then sets the writer start-timeout,
waits for the filewriters, disarms, queries the writer health (the return
value) and unconditionally restores non-ROI geometry. -/
def EigerDetector.unstage (params : Option DetectorParams) (env : UnstageEnv) :
    List EigerEv × Except String Bool :=
  match params with
  | none => ([], .error "AssertionError: detector_params is not None")
  | some p =>
      let freeRunEvents : List EigerEv :=
        if p.trigger_mode = TriggerMode.FREE_RUN then
          [.awaitNumCaptured p.full_number_of_images, .odinStop]
        else []
      let mainEvents : List EigerEv :=
        freeRunEvents ++
          [.odinStartTimeoutPut 1, .waitFilewritersFinished, .disarmDetector,
           .checkOdinState]
      match change_roi_mode p false env.disable_roi_success with
      | none => (mainEvents, .error "AttributeError: detector_size_constants is None")
      | some roiEvents => (mainEvents ++ roiEvents, .ok env.odin_state_ok)

end Dodal

namespace Dodal

/-! ## Claims about the safe-move coordinator -/

/-- C1: for every safe move accepted by the coordinator (aperture z done
moving and already at the requested z plane), the trace of issued operations
is exactly: when the requested aperture-y is strictly greater than the current
aperture-y readback, the scatterguard x and y writes, then the blocking wait
on their composite (so the first phase has fully completed), then the aperture
x/y/z writes; when the requested aperture-y is less than or equal to the
current readback, the aperture x/y/z writes, the blocking wait on their
composite, then the scatterguard writes.  In both cases no second-phase write
appears in the trace before the `waitFirstPhase` event. -/
theorem safe_move_two_phase_barrier (m : ApSgMotors)
    (ax ay az sx sy : ℚ)
    (hz : m.ap_z_done_move = true) (hzp : m.ap_z_setpoint = az) :
    (ay > m.ap_y_readback →
      safe_move_within_datacollection_range m ax ay az sx sy =
        ([.setScatterguardX sx, .setScatterguardY sy, .waitFirstPhase,
          .setApertureX ax, .setApertureY ay, .setApertureZ az], .moved)) ∧
    (ay ≤ m.ap_y_readback →
      safe_move_within_datacollection_range m ax ay az sx sy =
        ([.setApertureX ax, .setApertureY ay, .setApertureZ az, .waitFirstPhase,
          .setScatterguardX sx, .setScatterguardY sy], .moved)) := by
  constructor
  · intro hgt
    simp [safe_move_within_datacollection_range, hz, hzp, hgt]
  · intro hle
    simp [safe_move_within_datacollection_range, hz, hzp, not_lt.mpr hle]

/-- Witness for C1 at concrete inputs: an opening move (requested y 20 above
current 10) and a closing move (requested y 10 below current 20). -/
theorem safe_move_two_phase_barrier_witness :
    (safe_move_within_datacollection_range ⟨true, 5, 10⟩ 1 20 5 2 3 =
      ([.setScatterguardX 2, .setScatterguardY 3, .waitFirstPhase,
        .setApertureX 1, .setApertureY 20, .setApertureZ 5], .moved)) ∧
    (safe_move_within_datacollection_range ⟨true, 5, 20⟩ 1 10 5 2 3 =
      ([.setApertureX 1, .setApertureY 10, .setApertureZ 5, .waitFirstPhase,
        .setScatterguardX 2, .setScatterguardY 3], .moved)) :=
  ⟨(safe_move_two_phase_barrier ⟨true, 5, 10⟩ 1 20 5 2 3 rfl rfl).1 (by norm_num),
   (safe_move_two_phase_barrier ⟨true, 5, 20⟩ 1 10 5 2 3 rfl rfl).2 (by norm_num)⟩

/-- C7: if the aperture z axis does not report motion-complete, the safe move
issues no hardware interaction at all, raises nothing, and returns `None`
(the no-op outcome) — the z-plane check and the y-comparison phases are never
reached. -/
theorem safe_move_noop_when_z_not_done (m : ApSgMotors)
    (ax ay az sx sy : ℚ) (hz : m.ap_z_done_move = false) :
    safe_move_within_datacollection_range m ax ay az sx sy = ([], .noop) := by
  simp [safe_move_within_datacollection_range, hz]

/-- Witness for C7 at a concrete input. -/
theorem safe_move_noop_when_z_not_done_witness :
    safe_move_within_datacollection_range ⟨false, 5, 10⟩ 1 20 5 2 3 = ([], .noop) :=
  safe_move_noop_when_z_not_done ⟨false, 5, 10⟩ 1 20 5 2 3 rfl

/-- C2: `set` raises `InvalidApertureMove` with zero device writes whenever
the preset table is unloaded or the target is not bit-exact equal to one of
the four presets; for each of the four preset tuples it proceeds to the safe
move (its result is exactly that of
`_safe_move_within_datacollection_range` on the tuple's components). -/
theorem set_rejects_non_presets (d : ApertureScatterguard) (pos : Pos5) :
    (d.aperture_positions = none →
      ∃ msg, d.set pos = ([], .invalidMove msg)) ∧
    (∀ ps, d.aperture_positions = some ps → ps.position_valid pos = false →
      ∃ msg, d.set pos = ([], .invalidMove msg)) ∧
    (∀ ps, d.aperture_positions = some ps →
      (pos = ps.LARGE ∨ pos = ps.MEDIUM ∨ pos = ps.SMALL ∨ pos = ps.ROBOT_LOAD) →
      d.set pos = safe_move_within_datacollection_range d.motors
        pos.miniap_x pos.miniap_y pos.miniap_z pos.scatterguard_x pos.scatterguard_y) := by
  refine ⟨fun hnone => ?_, fun ps hps hinvalid => ?_, fun ps hps hpreset => ?_⟩
  · exact ⟨"AssertionError: aperture positions have not been loaded",
      by simp [ApertureScatterguard.set, hnone]⟩
  · exact ⟨"AssertionError: position is not a valid preset",
      by simp [ApertureScatterguard.set, hps, hinvalid]⟩
  · have hvalid : ps.position_valid pos = true := by
      simp [AperturePositions.position_valid]
      tauto
    simp [ApertureScatterguard.set, hps, hvalid]

/-- Witness for C2 at concrete inputs: a loaded preset table where the LARGE
preset is accepted and an off-preset tuple is rejected with no writes, and an
unloaded table where everything is rejected. -/
theorem set_rejects_non_presets_witness :
    (ApertureScatterguard.set
        ⟨some ⟨⟨1, 2, 3, 4, 5⟩, ⟨6, 7, 8, 9, 10⟩, ⟨11, 12, 13, 14, 15⟩, ⟨16, 17, 18, 19, 20⟩⟩,
         ⟨true, 3, 0⟩⟩ ⟨1, 2, 3, 4, 5⟩ =
      safe_move_within_datacollection_range ⟨true, 3, 0⟩ 1 2 3 4 5) ∧
    (∃ msg, ApertureScatterguard.set
        ⟨some ⟨⟨1, 2, 3, 4, 5⟩, ⟨6, 7, 8, 9, 10⟩, ⟨11, 12, 13, 14, 15⟩, ⟨16, 17, 18, 19, 20⟩⟩,
         ⟨true, 3, 0⟩⟩ ⟨0, 0, 0, 0, 0⟩ = ([], .invalidMove msg)) ∧
    (∃ msg, ApertureScatterguard.set ⟨none, ⟨true, 3, 0⟩⟩ ⟨1, 2, 3, 4, 5⟩ =
      ([], .invalidMove msg)) :=
  ⟨(set_rejects_non_presets _ _).2.2 _ rfl (Or.inl rfl),
   (set_rejects_non_presets _ _).2.1 _ rfl (by decide),
   (set_rejects_non_presets _ _).1 rfl⟩

/-! ## Claims about the Eiger controller -/

/-- C3: `set_num_triggers_and_captures` writes counts according to the
trigger mode — `FREE_RUN` writes a camera trigger count of 1,000,000 and a
writer capture-count of 0 regardless of the image-count fields; `SET_FRAMES`
writes `num_triggers` as the camera trigger count and
`num_triggers × num_images_per_trigger` as the writer capture-count. -/
theorem set_num_triggers_and_captures_counts (p : DetectorParams) :
    (p.trigger_mode = TriggerMode.FREE_RUN →
      set_num_triggers_and_captures p =
        [.camNumImages p.num_images_per_trigger,
         .camNumTriggers 1000000, .odinNumCapture 0]) ∧
    (p.trigger_mode = TriggerMode.SET_FRAMES →
      set_num_triggers_and_captures p =
        [.camNumImages p.num_images_per_trigger,
         .camNumTriggers p.num_triggers,
         .odinNumCapture (p.num_triggers * p.num_images_per_trigger)]) := by
  constructor <;> intro h <;>
    simp [set_num_triggers_and_captures, h, DetectorParams.full_number_of_images,
      FREE_RUN_MAX_IMAGES]

/-- Witness for C3: `SET_FRAMES` with `num_triggers = 3` and
`num_images_per_trigger = 3` yields capture-count 9 and trigger count 3, and
a `FREE_RUN` parameter set with the same image counts yields 1,000,000 / 0. -/
theorem set_num_triggers_and_captures_counts_witness :
    (set_num_triggers_and_captures
        ⟨100, 1, 3, 3, false, .SET_FRAMES, none, none⟩ =
      [.camNumImages 3, .camNumTriggers 3, .odinNumCapture 9]) ∧
    (set_num_triggers_and_captures
        ⟨100, 1, 3, 3, false, .FREE_RUN, none, none⟩ =
      [.camNumImages 3, .camNumTriggers 1000000, .odinNumCapture 0]) :=
  ⟨(set_num_triggers_and_captures_counts
      ⟨100, 1, 3, 3, false, .SET_FRAMES, none, none⟩).2 rfl,
   (set_num_triggers_and_captures_counts
      ⟨100, 1, 3, 3, false, .FREE_RUN, none, none⟩).1 rfl⟩

/-- C9: the very first write issued by `set_num_triggers_and_captures` is the
camera's per-trigger image count (`num_images = num_images_per_trigger`),
before the branch on the trigger mode — so it is issued in `FREE_RUN` mode
too. -/
theorem set_num_triggers_writes_num_images_first (p : DetectorParams) :
    (set_num_triggers_and_captures p).head? =
      some (.camNumImages p.num_images_per_trigger) := by
  cases h : p.trigger_mode <;> simp [set_num_triggers_and_captures, h]

/-- C4: with the default 0.1 eV tolerance, `set_detector_threshold` issues
zero writes and returns an already-finished status when the current energy is
within tolerance of the target, and issues exactly one write of the requested
value otherwise. -/
theorem set_detector_threshold_tolerance (cur e : ℚ) :
    (|cur - e| ≤ 1/10 →
      set_detector_threshold cur e (1/10) = ([], .finishedStatus)) ∧
    (|cur - e| > 1/10 →
      set_detector_threshold cur e (1/10) =
        ([.camPhotonEnergy e], .writeStatus e)) := by
  constructor <;> intro h
  · rw [set_detector_threshold, if_neg (not_lt.mpr h)]
  · rw [set_detector_threshold, if_pos h]

/-- Witness for C4: current 100 eV, target 100.09 eV (delta 0.09 ≤ 0.1) gives
no write; current 100 eV, target 200 eV gives exactly one write of 200. -/
theorem set_detector_threshold_tolerance_witness :
    (set_detector_threshold 100 (10009/100) (1/10) = ([], .finishedStatus)) ∧
    (set_detector_threshold 100 200 (1/10) =
      ([.camPhotonEnergy 200], .writeStatus 200)) :=
  ⟨(set_detector_threshold_tolerance 100 (10009/100)).1 (abs_le.mpr (by norm_num)),
   (set_detector_threshold_tolerance 100 200).2 (lt_abs.mpr (Or.inr (by norm_num)))⟩

/-- C5: `set_detector_parameters` aggregates validation failures: with both
`detector_size_constants` and `beam_xy_converter` missing the fault message
has exactly 2 lines, with exactly one missing it has exactly 1 line, with
neither missing no fault is raised; and in every case it performs zero
hardware writes (validation is synchronous). -/
theorem set_detector_parameters_aggregates (s : EigerState) (p : DetectorParams) :
    (p.detector_size_constants = none → p.beam_xy_converter = none →
      ∃ m, (set_detector_parameters s (some p)).2.2 = .error m ∧ lineCount m = 2) ∧
    (p.detector_size_constants = none → p.beam_xy_converter ≠ none →
      ∃ m, (set_detector_parameters s (some p)).2.2 = .error m ∧ lineCount m = 1) ∧
    (p.detector_size_constants ≠ none → p.beam_xy_converter = none →
      ∃ m, (set_detector_parameters s (some p)).2.2 = .error m ∧ lineCount m = 1) ∧
    (p.detector_size_constants ≠ none → p.beam_xy_converter ≠ none →
      (set_detector_parameters s (some p)).2.2 = .ok ()) ∧
    (set_detector_parameters s (some p)).2.1 = [] := by
  refine ⟨fun h1 h2 => ?_, fun h1 h2 => ?_, fun h1 h2 => ?_, fun h1 h2 => ?_, ?_⟩
  · refine ⟨"Detector Size must be set" ++ "\n" ++ "Beam converter must be set", ?_, by decide⟩
    have h3 : detector_param_errors p =
        ["Detector Size must be set", "Beam converter must be set"] := by
      simp [detector_param_errors, h1, h2]
    simp only [set_detector_parameters, h3]
    rfl
  · rcases Option.ne_none_iff_exists.mp h2 with ⟨u, hu⟩
    refine ⟨"Detector Size must be set", ?_, by decide⟩
    have h3 : detector_param_errors p = ["Detector Size must be set"] := by
      simp [detector_param_errors, h1, ← hu]
    simp only [set_detector_parameters, h3]
    rfl
  · rcases Option.ne_none_iff_exists.mp h1 with ⟨sz, hsz⟩
    refine ⟨"Beam converter must be set", ?_, by decide⟩
    have h3 : detector_param_errors p = ["Beam converter must be set"] := by
      simp [detector_param_errors, ← hsz, h2]
    simp only [set_detector_parameters, h3]
    rfl
  · rcases Option.ne_none_iff_exists.mp h1 with ⟨sz, hsz⟩
    rcases Option.ne_none_iff_exists.mp h2 with ⟨u, hu⟩
    have h3 : detector_param_errors p = [] := by
      simp [detector_param_errors, ← hsz, ← hu]
    simp [set_detector_parameters, h3]
  · cases hp : (detector_param_errors p).isEmpty <;>
      simp [set_detector_parameters, hp]

/-- Witness for C5: with both fields missing the fault has 2 lines; with only
the converter present the fault has 1 line; with both present no fault. -/
theorem set_detector_parameters_aggregates_witness :
    (∃ m, (set_detector_parameters ⟨none⟩
        (some ⟨100, 1, 1, 1, false, .SET_FRAMES, none, none⟩)).2.2 = .error m ∧
      lineCount m = 2) ∧
    (∃ m, (set_detector_parameters ⟨none⟩
        (some ⟨100, 1, 1, 1, false, .SET_FRAMES, none, some ()⟩)).2.2 = .error m ∧
      lineCount m = 1) ∧
    ((set_detector_parameters ⟨none⟩
        (some ⟨100, 1, 1, 1, false, .SET_FRAMES,
          some ⟨⟨2167, 2070⟩, ⟨4362, 4148⟩⟩, some ()⟩)).2.2 = .ok ()) :=
  ⟨(set_detector_parameters_aggregates ⟨none⟩ _).1 rfl rfl,
   (set_detector_parameters_aggregates ⟨none⟩ _).2.1 rfl (Option.some_ne_none ()),
   (set_detector_parameters_aggregates ⟨none⟩ _).2.2.2.1
     (Option.some_ne_none (⟨⟨2167, 2070⟩, ⟨4362, 4148⟩⟩ : DetectorSizeConstants))
     (Option.some_ne_none ())⟩

/-- C6 counterexample: the claim that the controller state is unchanged on
the fault path is false.  Starting from a controller holding a fully valid
parameter set, calling `set_detector_parameters` with a parameter set missing
both required fields raises the aggregated fault, yet the stored
`detector_params` has been overwritten with the invalid parameters (the
source assigns `self.detector_params = detector_params` before validating). -/
theorem set_detector_parameters_fault_mutates_state :
    (∃ m, (set_detector_parameters
        ⟨some ⟨100, 1, 1, 1, false, .SET_FRAMES,
          some ⟨⟨2167, 2070⟩, ⟨4362, 4148⟩⟩, some ()⟩⟩
        (some ⟨100, 1, 1, 1, false, .SET_FRAMES, none, none⟩)).2.2 = .error m) ∧
    (set_detector_parameters
        ⟨some ⟨100, 1, 1, 1, false, .SET_FRAMES,
          some ⟨⟨2167, 2070⟩, ⟨4362, 4148⟩⟩, some ()⟩⟩
        (some ⟨100, 1, 1, 1, false, .SET_FRAMES, none, none⟩)).1 ≠
      ⟨some ⟨100, 1, 1, 1, false, .SET_FRAMES,
          some ⟨⟨2167, 2070⟩, ⟨4362, 4148⟩⟩, some ()⟩⟩ := by
  constructor
  · exact ⟨_, rfl⟩
  · decide

/-- C6 amended: on the fault path of `set_detector_parameters` no hardware
write is performed, but the stored `detector_params` is overwritten with the
supplied (invalid) parameters before the fault is raised. -/
theorem set_detector_parameters_fault_path (s : EigerState)
    (p? : Option DetectorParams)
    (_h : ∃ m, (set_detector_parameters s p?).2.2 = .error m) :
    (set_detector_parameters s p?).2.1 = [] ∧
    (set_detector_parameters s p?).1 = ⟨p?⟩ := by
  cases p? with
  | none => simp [set_detector_parameters]
  | some p =>
      cases hp : (detector_param_errors p).isEmpty <;>
        simp [set_detector_parameters, hp]

/-- Witness for C6 amended: calling with parameters missing both fields from
an empty controller faults, writes nothing, and stores those parameters. -/
theorem set_detector_parameters_fault_path_witness :
    (set_detector_parameters ⟨none⟩
        (some ⟨100, 1, 1, 1, false, .SET_FRAMES, none, none⟩)).2.1 = [] ∧
    (set_detector_parameters ⟨none⟩
        (some ⟨100, 1, 1, 1, false, .SET_FRAMES, none, none⟩)).1 =
      ⟨some ⟨100, 1, 1, 1, false, .SET_FRAMES, none, none⟩⟩ :=
  set_detector_parameters_fault_path ⟨none⟩
    (some ⟨100, 1, 1, 1, false, .SET_FRAMES, none, none⟩) ⟨_, rfl⟩

/-- C8: a failure of the ROI-mode geometry switch never aborts staging — for
every environment in which Odin is initialised (and size constants are
present), `stage` completes with the `ok` outcome and its trace ends with all
the post-ROI configuration steps, regardless of `roi_switch_success`; when
ROI mode is requested and the switch composite fails, the only extra effect
is a logged error in the prefix. -/
theorem stage_proceeds_after_roi_failure (p : DetectorParams) (env : StageEnv)
    (sz : DetectorSizeConstants)
    (hok : env.odin_initialised_ok = true)
    (hsz : p.detector_size_constants = some sz) :
    (EigerDetector.stage p env).2 = .ok () ∧
    ∃ pre, (EigerDetector.stage p env).1 = pre ++ stage_steps_after_roi p env ∧
      (p.use_roi_mode = true → env.roi_switch_success = false →
        EigerEv.logError "Failed to switch to ROI mode" ∈ pre) := by
  cases hroi : p.use_roi_mode
  · refine ⟨?_, [.clearOdinErrors, .checkOdinInitialised], ?_, ?_⟩
    · simp [EigerDetector.stage, hok, hroi]
    · simp [EigerDetector.stage, hok, hroi]
    · intro hcontra
      simp at hcontra
  · cases hs : env.roi_switch_success
    · refine ⟨?_, [.clearOdinErrors, .checkOdinInitialised] ++
        ([.camRoiMode 1, .odinImageHeight sz.roi_size_pixels.height,
          .odinImageWidth sz.roi_size_pixels.width,
          .odinNumRowChunks sz.roi_size_pixels.height,
          .odinNumColChunks sz.roi_size_pixels.width,
          .waitStatus 10] ++ [.logError "Failed to switch to ROI mode"]), ?_, ?_⟩
      · simp [EigerDetector.stage, hok, hroi, change_roi_mode, hsz, hs]
      · simp [EigerDetector.stage, hok, hroi, change_roi_mode, hsz, hs]
      · intro _ _
        simp
    · refine ⟨?_, [.clearOdinErrors, .checkOdinInitialised] ++
        [.camRoiMode 1, .odinImageHeight sz.roi_size_pixels.height,
         .odinImageWidth sz.roi_size_pixels.width,
         .odinNumRowChunks sz.roi_size_pixels.height,
         .odinNumColChunks sz.roi_size_pixels.width,
         .waitStatus 10], ?_, ?_⟩
      · simp [EigerDetector.stage, hok, hroi, change_roi_mode, hsz, hs]
      · simp [EigerDetector.stage, hok, hroi, change_roi_mode, hsz, hs]
      · intro _ hcontra
        simp at hcontra

/-- Witness for C8: a concrete staging with ROI mode requested and the ROI
switch failing still ends in the `ok` outcome with the post-ROI steps. -/
theorem stage_proceeds_after_roi_failure_witness :
    (EigerDetector.stage
        ⟨100, 1, 3, 3, true, .SET_FRAMES, some ⟨⟨2167, 2070⟩, ⟨4362, 4148⟩⟩, some ()⟩
        ⟨true, "", 100, false⟩).2 = .ok () ∧
    ∃ pre, (EigerDetector.stage
        ⟨100, 1, 3, 3, true, .SET_FRAMES, some ⟨⟨2167, 2070⟩, ⟨4362, 4148⟩⟩, some ()⟩
        ⟨true, "", 100, false⟩).1 =
      pre ++ stage_steps_after_roi
        ⟨100, 1, 3, 3, true, .SET_FRAMES, some ⟨⟨2167, 2070⟩, ⟨4362, 4148⟩⟩, some ()⟩
        ⟨true, "", 100, false⟩ ∧
      (true = true → false = false →
        EigerEv.logError "Failed to switch to ROI mode" ∈ pre) :=
  stage_proceeds_after_roi_failure _ _ ⟨⟨2167, 2070⟩, ⟨4362, 4148⟩⟩ rfl rfl

/-- C10: `unstage` asserts that detector parameters have been set — with
`detector_params = None` it raises before any writer interaction (empty
trace) instead of returning a health boolean; with parameters present that
assertion never fires; and whenever `set_detector_parameters` succeeds the
stored parameters are non-`None`, so the assertion branch is unreachable
after a successful parameter set. -/
theorem unstage_asserts_params_set (env : UnstageEnv) :
    (EigerDetector.unstage none env =
      ([], .error "AssertionError: detector_params is not None")) ∧
    (∀ p, (EigerDetector.unstage (some p) env).2 ≠
      .error "AssertionError: detector_params is not None") ∧
    (∀ s p?, (set_detector_parameters s p?).2.2 = .ok () →
      ∃ p, (set_detector_parameters s p?).1.detector_params = some p) := by
  refine ⟨rfl, fun p => ?_, fun s p? hok => ?_⟩
  · cases hroi : change_roi_mode p false env.disable_roi_success <;>
      simp [EigerDetector.unstage, hroi]
  · cases p? with
    | none => simp [set_detector_parameters] at hok
    | some p =>
        refine ⟨p, ?_⟩
        simp only [set_detector_parameters]
        split <;> rfl

/-- Witness for C10 at concrete inputs: the `None` case faults with an empty
trace, a parameterised unstage does not hit the assertion, and a successful
parameter set stores `some` parameters. -/
theorem unstage_asserts_params_set_witness :
    (EigerDetector.unstage none ⟨true, true⟩ =
      ([], .error "AssertionError: detector_params is not None")) ∧
    ((EigerDetector.unstage
        (some ⟨100, 1, 1, 1, false, .SET_FRAMES,
          some ⟨⟨2167, 2070⟩, ⟨4362, 4148⟩⟩, some ()⟩) ⟨true, true⟩).2 ≠
      .error "AssertionError: detector_params is not None") ∧
    (∃ p, (set_detector_parameters ⟨none⟩
        (some ⟨100, 1, 1, 1, false, .SET_FRAMES,
          some ⟨⟨2167, 2070⟩, ⟨4362, 4148⟩⟩, some ()⟩)).1.detector_params = some p) :=
  ⟨(unstage_asserts_params_set ⟨true, true⟩).1,
   (unstage_asserts_params_set ⟨true, true⟩).2.1 _,
   (unstage_asserts_params_set ⟨true, true⟩).2.2 ⟨none⟩ _ rfl⟩

end Dodal
